import Mathlib

/-!
Shallow embedding of the WebReview API core (Azure Functions + Cosmos DB).

The embedding follows the JavaScript sources:
  api/src/shared/auth.js       credential utility (JWT, bcrypt wrapper, roles)
  api/src/shared/database.js   persistence operations over four record kinds
  api/src/functions/auth.js    login / register / me / refresh / validate-invite
  api/src/functions/projects.js  project CRUD and feedback handlers
  api/src/functions/users.js   invitations and user management handlers

External collaborators (bcryptjs, jsonwebtoken, the WHATWG URL parser,
Math.random, the Cosmos container API) are modelled by their contracts:
bcrypt hashes keep the salt and hashed password abstractly, a signed JWT
records its payload, signing secret and expiry, Math.random is a stream of
draws supplied as a function, and each Cosmos container is a Lean list with
query, create and replace operations translated from the query text used in
database.js.

The file is organised with every definition first (the embedding of the
credential utility, the data model, the persistence operations, the
endpoint handlers, the response renderers, and the concrete stores used by
the witnesses), followed by all lemmas and theorems.
-/

namespace WebReview

/-- JavaScript String.prototype.toLowerCase, written over the character
list so that it evaluates inside the kernel. -/
def toLowerStr (s : String) : String :=
  String.mk (s.toList.map Char.toLower)

/-- JavaScript String.prototype.trim: strip leading and trailing
whitespace. -/
def trimStr (s : String) : String :=
  String.mk (((s.toList.dropWhile Char.isWhitespace).reverse.dropWhile
    Char.isWhitespace).reverse)

/-- The url.startsWith(http) test used by the project handlers. -/
def startsWithHttp (s : String) : Bool :=
  match s.toList with
  | 'h' :: 't' :: 't' :: 'p' :: _ => true
  | _ => false

/-- JavaScript truthiness for an optional string field: an absent field
(undefined) and the empty string are both falsy. -/
def truthy : Option String → Bool
  | none => false
  | some s => s != ""

/-- JavaScript `value || dflt` for optional string data, as used by the
persistence layer for defaulted fields. -/
def orDefault (o : Option String) (d : String) : String :=
  match o with
  | none => d
  | some s => if s == "" then d else s

/-- Contract model of a bcrypt hash (external bcryptjs library): the stored
hash determines the salt used and the password that was hashed; two calls
with the same password but different salts give different hashes. -/
structure BHash where
  salt : String
  pw : String
deriving DecidableEq, Repr

/-- Contract model of bcrypt.compare: succeeds exactly when the candidate
password is the one that was hashed. -/
def bcryptCompare (password : String) (h : BHash) : Bool :=
  h.pw == password

/-- The JWT claims object. Every field is optional because jwt.sign simply
serialises whatever keys the payload object has; the login handler in
functions/auth.js omits organizationId while shared/auth.js generateToken
includes it. -/
structure JwtPayload where
  userId : Option String
  email : Option String
  name : Option String
  role : Option String
  organizationId : Option String
deriving DecidableEq, Repr

/-- Contract model of a signed JWT (external jsonwebtoken library): the
token records its payload, the secret it was signed with, and its expiry
instant; verification with the right secret before expiry recovers the
payload and anything else fails. -/
structure SignedToken where
  payload : JwtPayload
  secret : String
  exp : Nat
deriving DecidableEq, Repr

/-- shared/auth.js line 9: the fallback used when process.env.JWT_SECRET is
unset or empty. -/
def defaultSecret : String := "development-secret-change-me"

/-- shared/auth.js line 9: JWT_SECRET = process.env.JWT_SECRET || fallback.
The environment variable is an Option; the empty string is falsy. -/
def jwtSecretOf : Option String → String
  | none => defaultSecret
  | some s => if s == "" then defaultSecret else s

/-- functions/auth.js lines 55 and 195: the login and me handlers resolve
the secret the same way and then call .trim() on it. -/
def loginJwtSecret (env : Option String) : String :=
  trimStr (jwtSecretOf env)

/-- The default token lifetime: JWT_EXPIRES_IN is 7d and the login handler
hardcodes expiresIn 7d; modelled in milliseconds like Date.now(). -/
def sevenDays : Nat := 7 * 24 * 60 * 60 * 1000

/-- The User record (users container). createUser in database.js never
writes a status field, so that key is only present on a document written by
some out-of-band path; it is an Option here, none meaning absent. -/
structure User where
  id : String
  email : String
  name : String
  passwordHash : BHash
  role : String
  organizationId : String
  assignedProjects : List String
  createdAt : Nat
  updatedAt : Nat
  isActive : Bool
  lastLogin : Option Nat
  status : Option String
deriving DecidableEq, Repr

/-- shared/auth.js generateToken (lines 30-40): payload carries userId,
email, name, role and organizationId, signed with JWT_SECRET, expiring in
JWT_EXPIRES_IN. -/
def generateToken (env : Option String) (u : User) (now : Nat) : SignedToken :=
  { payload :=
      { userId := some u.id
        email := some u.email
        name := some u.name
        role := some u.role
        organizationId := some u.organizationId }
    secret := jwtSecretOf env
    exp := now + sevenDays }

/-- jwt.verify against a given resolved secret: returns the claims when the
signature matches and the token is unexpired, null (none) otherwise. -/
def verifyTokenWith (secret : String) (now : Nat) (t : SignedToken) : Option JwtPayload :=
  if t.secret == secret && now ≤ t.exp then some t.payload else none

/-- shared/auth.js verifyToken (lines 45-51): verification against
JWT_SECRET, returning null instead of throwing. -/
def verifyToken (env : Option String) (now : Nat) (t : SignedToken) : Option JwtPayload :=
  verifyTokenWith (jwtSecretOf env) now t

/-- shared/auth.js hasRole (lines 88-99): false without a user or role,
admin passes every check, otherwise membership in the required list. -/
def hasRole (payload : Option JwtPayload) (required : List String) : Bool :=
  match payload with
  | none => false
  | some p =>
    match p.role with
    | none => false
    | some r =>
      if r == "" then false
      else if r == "admin" then true
      else required.contains r

/-- The 62-character alphabet of shared/auth.js generateInviteToken. -/
def inviteChars : List Char :=
  "ABCDEFGHIJKLMNOPQRSTUVWXYZabcdefghijklmnopqrstuvwxyz0123456789".toList

/-- shared/auth.js generateInviteToken (lines 104-111): 64 iterations of
charAt(floor(Math.random() * 62)). Math.random is an external
non-cryptographic generator; its draws are supplied as the function from
iteration number to floor(r * 62), which always lies below 62 (kept in
range here with a mod). -/
def generateInviteToken (draws : Nat → Nat) : String :=
  String.mk ((List.range 64).map (fun i => inviteChars.getD (draws i % 62) 'A'))

structure Project where
  id : String
  name : String
  client : String
  url : String
  description : String
  thumbnail : String
  status : String
  organizationId : String
  createdBy : String
  assignedClients : List String
  assignedDevelopers : List String
  createdAt : Nat
  updatedAt : Nat
deriving DecidableEq, Repr

structure Feedback where
  id : String
  projectId : String
  type : String
  priority : String
  text : String
  status : String
  authorId : Option String
  authorName : Option String
  authorRole : Option String
  createdAt : Nat
  updatedAt : Nat
  resolvedAt : Option Nat
  resolvedBy : Option String
deriving DecidableEq, Repr

structure Invitation where
  id : String
  email : String
  token : String
  role : String
  projectIds : List String
  invitedBy : Option String
  invitedByName : Option String
  organizationId : String
  expiresAt : Nat
  createdAt : Nat
  acceptedAt : Option Nat
  isUsed : Bool
deriving DecidableEq, Repr

/-- The document store: one list per Cosmos container used by the core. -/
structure DB where
  users : List User
  projects : List Project
  feedback : List Feedback
  invitations : List Invitation
deriving DecidableEq, Repr

/-- Input to createUser; optional fields are defaulted by the operation. -/
structure NewUserData where
  id : String
  email : String
  name : String
  passwordHash : BHash
  role : Option String
  organizationId : Option String
  assignedProjects : Option (List String)
deriving DecidableEq, Repr

/-- The document built by database.js createUser (lines 81-99): email
lowercased, role defaulted to client, organizationId defaulted, isActive
true, lastLogin null, and no status field. -/
def mkUser (d : NewUserData) (now : Nat) : User :=
  { id := d.id
    email := toLowerStr d.email
    name := d.name
    passwordHash := d.passwordHash
    role := orDefault d.role "client"
    organizationId := orDefault d.organizationId "stevensit"
    assignedProjects := d.assignedProjects.getD []
    createdAt := now
    updatedAt := now
    isActive := true
    lastLogin := none
    status := none }

/-- database.js createUser: insert the new document. The JS function
returns sanitizeUser(resource); the stored document is returned here and
handlers sanitize when rendering. -/
def createUser (db : DB) (d : NewUserData) (now : Nat) : User × DB :=
  let u := mkUser d now
  (u, { db with users := db.users ++ [u] })

/-- database.js getUserByEmail: SELECT * WHERE c.email = lowercased email,
first result or null. -/
def getUserByEmail (db : DB) (email : String) : Option User :=
  (db.users.filter (fun u => u.email == toLowerStr email)).head?

/-- database.js getUserById: SELECT * WHERE c.id = id, first or null. -/
def getUserById (db : DB) (id : String) : Option User :=
  (db.users.filter (fun u => u.id == id)).head?

/-- database.js getProjectById (lines 193-202): Cosmos point read by (id,
partition key organizationId). The parameter defaults to stevensit, so a
caller passing an absent token claim still reads that partition. -/
def getProjectById (db : DB) (id : String) (org : Option String) : Option Project :=
  let o := org.getD "stevensit"
  (db.projects.filter (fun p => p.id == id && p.organizationId == o)).head?

/-- The merge objects handed to database.js updateProject; a key absent
from the JS updates object is none. -/
structure ProjectUpdates where
  name : Option String := none
  client : Option String := none
  url : Option String := none
  description : Option String := none
  thumbnail : Option String := none
  status : Option String := none
  assignedClients : Option (List String) := none
deriving DecidableEq, Repr

/-- The spread merge { ...project, ...updates, updatedAt: now } of
database.js updateProject. -/
def applyProjectUpdates (p : Project) (u : ProjectUpdates) (now : Nat) : Project :=
  { p with
    name := u.name.getD p.name
    client := u.client.getD p.client
    url := u.url.getD p.url
    description := u.description.getD p.description
    thumbnail := u.thumbnail.getD p.thumbnail
    status := u.status.getD p.status
    assignedClients := u.assignedClients.getD p.assignedClients
    updatedAt := now }

/-- database.js updateProject (lines 229-243): fetch by (id, org), merge,
replace the item in place; null when the project does not exist. -/
def updateProject (db : DB) (id : String) (org : Option String)
    (u : ProjectUpdates) (now : Nat) : Option Project × DB :=
  match getProjectById db id org with
  | none => (none, db)
  | some p =>
    let p2 := applyProjectUpdates p u now
    (some p2,
     { db with
       projects := db.projects.map (fun q =>
         if q.id == p.id && q.organizationId == p.organizationId then p2 else q) })

/-- Input to database.js createFeedback. -/
structure NewFeedbackData where
  id : String
  projectId : String
  type : Option String
  priority : Option String
  text : String
  status : Option String
  authorId : Option String
  authorName : Option String
  authorRole : Option String
deriving DecidableEq, Repr

/-- The document built by database.js createFeedback (lines 255-275). -/
def mkFeedback (d : NewFeedbackData) (now : Nat) : Feedback :=
  { id := d.id
    projectId := d.projectId
    type := orDefault d.type "general"
    priority := orDefault d.priority "medium"
    text := d.text
    status := orDefault d.status "open"
    authorId := d.authorId
    authorName := d.authorName
    authorRole := d.authorRole
    createdAt := now
    updatedAt := now
    resolvedAt := none
    resolvedBy := none }

/-- database.js createFeedback: insert the new document. -/
def createFeedback (db : DB) (d : NewFeedbackData) (now : Nat) : Feedback × DB :=
  let f := mkFeedback d now
  (f, { db with feedback := db.feedback ++ [f] })

/-- Input to database.js createInvitation. -/
structure NewInvitationData where
  id : String
  email : String
  token : String
  role : Option String
  projectIds : Option (List String)
  invitedBy : Option String
  invitedByName : Option String
  organizationId : Option String
  expiresAt : Nat
deriving DecidableEq, Repr

/-- The document built by database.js createInvitation (lines 341-360):
email lowercased, role defaulted to client, isUsed false, acceptedAt
null. -/
def mkInvitation (d : NewInvitationData) (now : Nat) : Invitation :=
  { id := d.id
    email := toLowerStr d.email
    token := d.token
    role := orDefault d.role "client"
    projectIds := d.projectIds.getD []
    invitedBy := d.invitedBy
    invitedByName := d.invitedByName
    organizationId := orDefault d.organizationId "stevensit"
    expiresAt := d.expiresAt
    createdAt := now
    acceptedAt := none
    isUsed := false }

/-- database.js createInvitation: insert the new document. -/
def createInvitation (db : DB) (d : NewInvitationData) (now : Nat) :
    Invitation × DB :=
  let i := mkInvitation d now
  (i, { db with invitations := db.invitations ++ [i] })

/-- database.js getInvitationByToken (lines 362-371): SELECT * WHERE
c.token = token AND c.isUsed = false, first result or null. -/
def getInvitationByToken (db : DB) (tok : String) : Option Invitation :=
  (db.invitations.filter (fun i => i.token == tok && !i.isUsed)).head?

/-- Accumulator step for ORDER BY c.createdAt DESC followed by taking the
first result: keep the invitation with the largest createdAt. -/
def newestStep (acc : Option Invitation) (i : Invitation) : Option Invitation :=
  match acc with
  | none => some i
  | some j => some (if i.createdAt > j.createdAt then i else j)

/-- database.js getInvitationByEmail (lines 373-382): SELECT * WHERE
c.email = lowercased email ORDER BY c.createdAt DESC, first or null. -/
def getInvitationByEmail (db : DB) (email : String) : Option Invitation :=
  (db.invitations.filter (fun i => i.email == toLowerStr email)).foldl newestStep none

/-- Outcome of database.js markInvitationUsed: the JS function returns null
without touching anything when no invitation carries that email, succeeds
when the invitation found by email is the addressed item, and the Cosmos
replace call throws when the body id differs from the addressed id. -/
inductive MarkResult where
  | ok (inv : Invitation) (db : DB)
  | notFound (db : DB)
  | thrown
deriving DecidableEq, Repr

/-- database.js markInvitationUsed (lines 384-398): look the invitation up
by email (newest first), set isUsed and acceptedAt, and replace the item
addressed by (id, email). -/
def markInvitationUsed (db : DB) (id : String) (email : String) (now : Nat) :
    MarkResult :=
  match getInvitationByEmail db email with
  | none => .notFound db
  | some inv =>
    if inv.id == id then
      let inv2 := { inv with isUsed := true, acceptedAt := some now }
      .ok inv2
        { db with
          invitations := db.invitations.map (fun j => if j.id == inv.id then inv2 else j) }
    else .thrown

/-- The merge objects handed to database.js updateUser. -/
structure UserUpdates where
  name : Option String := none
  role : Option String := none
  isActive : Option Bool := none
deriving DecidableEq, Repr

/-- The spread merge { ...user, ...updates, updatedAt: now } of
database.js updateUser. -/
def applyUserUpdates (u : User) (upd : UserUpdates) (now : Nat) : User :=
  { u with
    name := upd.name.getD u.name
    role := upd.role.getD u.role
    isActive := upd.isActive.getD u.isActive
    updatedAt := now }

/-- Outcome of database.js updateUser: null when no user carries that
email, success when the user found by email is the addressed item, and the
replace call throws when the body id differs from the addressed id. -/
inductive UserUpdateOutcome where
  | ok (u : User) (db : DB)
  | notFound (db : DB)
  | thrown
deriving DecidableEq, Repr

/-- database.js updateUser (lines 123-137): look the user up by email,
merge the updates, replace the item addressed by (id, lowercased email);
the JS function returns sanitizeUser(resource). -/
def updateUserDb (db : DB) (id : String) (email : String) (upd : UserUpdates)
    (now : Nat) : UserUpdateOutcome :=
  match getUserByEmail db email with
  | none => .notFound db
  | some u =>
    if u.id == id then
      let u2 := applyUserUpdates u upd now
      .ok u2
        { db with users := db.users.map (fun v => if v.id == u.id then u2 else v) }
    else .thrown

/-- A primitive JSON value as it appears inside a rendered user object. -/
inductive JVal where
  | s (v : String)
  | n (v : Nat)
  | b (v : Bool)
  | null
  | list (vs : List String)
deriving DecidableEq, Repr

/-- The stored bcrypt hash string of a user document. -/
def hashString (h : BHash) : String := h.salt ++ ":" ++ h.pw

/-- The JSON object of a stored user document, passwordHash included; the
status key is present only when the document has one. -/
def userToJson (u : User) : List (String × JVal) :=
  [("id", JVal.s u.id), ("email", JVal.s u.email), ("name", JVal.s u.name),
   ("passwordHash", JVal.s (hashString u.passwordHash)),
   ("role", JVal.s u.role), ("organizationId", JVal.s u.organizationId),
   ("assignedProjects", JVal.list u.assignedProjects),
   ("createdAt", JVal.n u.createdAt), ("updatedAt", JVal.n u.updatedAt),
   ("isActive", JVal.b u.isActive),
   ("lastLogin", match u.lastLogin with | none => JVal.null | some t => JVal.n t)]
  ++ (match u.status with | none => [] | some st => [("status", JVal.s st)])

/-- database.js sanitizeUser (lines 161-165) and the handler-level
destructuring: remove the passwordHash key. -/
def sanitizeUser (o : List (String × JVal)) : List (String × JVal) :=
  o.filter (fun kv => kv.fst != "passwordHash")

/-- Whether a rendered object carries a given key. -/
def hasKey (k : String) (o : List (String × JVal)) : Bool :=
  o.any (fun kv => kv.fst == k)

/-- Responses of POST /auth/login. -/
inductive LoginRes where
  | badRequest (error : String)
  | unauthorized (error : String)
  | forbidden (error : String)
  | ok (user : List (String × JVal)) (token : SignedToken)
deriving DecidableEq, Repr

/-- functions/auth.js login (lines 16-86): requires email and password,
looks the user up by email, rejects when the document has no status field
equal to active, checks the password with bcrypt, and signs a token whose
payload carries userId, email, name and role (no organizationId) with the
trimmed secret. -/
def login (env : Option String) (now : Nat) (db : DB)
    (email password : Option String) : LoginRes :=
  if !(truthy email && truthy password) then
    .badRequest "Email and password are required"
  else
    match getUserByEmail db (email.getD "") with
    | none => .unauthorized "Invalid email or password"
    | some user =>
      if user.status != some "active" then .forbidden "Account is disabled"
      else if !(bcryptCompare (password.getD "") user.passwordHash) then
        .unauthorized "Invalid email or password"
      else
        .ok (sanitizeUser (userToJson user))
          { payload :=
              { userId := some user.id
                email := some user.email
                name := some user.name
                role := some user.role
                organizationId := none }
            secret := loginJwtSecret env
            exp := now + sevenDays }

/-- Responses of POST /auth/register. -/
inductive RegisterRes where
  | badRequest (error : String)
  | serverError (error : String)
  | created (user : List (String × JVal)) (token : SignedToken)
deriving DecidableEq, Repr

/-- The loop at functions/auth.js lines 144-152: for each preassigned
project of the invitation, append the new user id to its assignedClients
(projects that do not exist are skipped). -/
def assignInvitedProjects (db : DB) (inv : Invitation) (userId : String)
    (now : Nat) : DB :=
  inv.projectIds.foldl
    (fun acc pid =>
      match getProjectById acc pid (some inv.organizationId) with
      | none => acc
      | some project =>
        (updateProject acc pid (some inv.organizationId)
          { assignedClients := some (project.assignedClients ++ [userId]) } now).snd)
    db

/-- functions/auth.js register (lines 94-166): requires token, name and a
password of at least 8 characters, resolves the unused invitation by token,
rejects expired invitations and already-registered emails, creates the user
(a fresh uuid and a fresh bcrypt salt are supplied by the caller), marks
the invitation used, back-fills assignedClients on the preassigned
projects, and returns the created user with a token from the shared
generateToken. -/
def register (env : Option String) (now : Nat) (db : DB)
    (uuid salt : String) (token name password : Option String) :
    RegisterRes × DB :=
  if !(truthy token && truthy name && truthy password) then
    (.badRequest "Token, name, and password are required", db)
  else if (password.getD "").length < 8 then
    (.badRequest "Password must be at least 8 characters", db)
  else
    match getInvitationByToken db (token.getD "") with
    | none => (.badRequest "Invalid or expired invitation token", db)
    | some inv =>
      if inv.expiresAt < now then (.badRequest "Invitation has expired", db)
      else
        match getUserByEmail db inv.email with
        | some _ => (.badRequest "An account with this email already exists", db)
        | none =>
          let created := createUser db
            { id := uuid
              email := inv.email
              name := name.getD ""
              passwordHash := { salt := salt, pw := password.getD "" }
              role := some inv.role
              organizationId := some inv.organizationId
              assignedProjects := some inv.projectIds } now
          let user := created.fst
          let db1 := created.snd
          match markInvitationUsed db1 inv.id inv.email now with
          | .thrown => (.serverError "Internal server error", db1)
          | .notFound db2 =>
            let db3 := assignInvitedProjects db2 inv user.id now
            (.created (sanitizeUser (userToJson user)) (generateToken env user now), db3)
          | .ok _ db2 =>
            let db3 := assignInvitedProjects db2 inv user.id now
            (.created (sanitizeUser (userToJson user)) (generateToken env user now), db3)

/-- Responses of GET /auth/me. -/
inductive MeRes where
  | unauthorized (error : String)
  | notFound (error : String)
  | ok (user : List (String × JVal))
deriving DecidableEq, Repr

/-- functions/auth.js me (lines 174-222): extract the bearer token, verify
it against the trimmed secret, load the user by the userId claim and return
it without passwordHash. -/
def meH (env : Option String) (now : Nat) (db : DB)
    (tok : Option SignedToken) : MeRes :=
  match tok with
  | none => .unauthorized "No Authorization header"
  | some t =>
    match verifyTokenWith (loginJwtSecret env) now t with
    | none => .unauthorized "Invalid token"
    | some p =>
      match (match p.userId with | none => none | some uid => getUserById db uid) with
      | none => .notFound "User not found"
      | some u => .ok (sanitizeUser (userToJson u))

/-- Responses of POST /auth/refresh. -/
inductive RefreshRes where
  | unauthorized (error : String)
  | ok (user : List (String × JVal)) (token : SignedToken)
deriving DecidableEq, Repr

/-- functions/auth.js refreshToken (lines 230-260): authenticate via the
shared verifyToken, reject missing or inactive users, and reissue a token
with the shared generateToken. -/
def refreshH (env : Option String) (now : Nat) (db : DB)
    (tok : Option SignedToken) : RefreshRes :=
  match tok with
  | none => .unauthorized "Authentication required"
  | some t =>
    match verifyToken env now t with
    | none => .unauthorized "Authentication required"
    | some p =>
      match (match p.userId with | none => none | some uid => getUserById db uid) with
      | none => .unauthorized "Invalid user"
      | some u =>
        if !u.isActive then .unauthorized "Invalid user"
        else .ok (sanitizeUser (userToJson u)) (generateToken env u now)

/-- projects.js lines 107 and 167: prefix https:// when the caller omits a
scheme. -/
def withScheme (url : String) : String :=
  if startsWithHttp url then url else "https://" ++ url

/-- The status enum accepted by the PATCH project handler. -/
def validStatuses : List String := ["pending", "in-review", "approved", "archived"]

/-- The body of PATCH /projects/(id); a key absent from the JSON body is
none. -/
structure PatchBody where
  name : Option String := none
  client : Option String := none
  url : Option String := none
  description : Option String := none
  thumbnail : Option String := none
  status : Option String := none
  assignedClients : Option (List String) := none
deriving DecidableEq, Repr

/-- Responses of PATCH /projects/(id); the ok payload is the project
returned by database.js updateProject, which is null when the item vanished
between read and replace. -/
inductive PatchRes where
  | unauthorized (error : String)
  | notFound (error : String)
  | forbidden (error : String)
  | badRequest (error : String)
  | ok (project : Option Project)
deriving DecidableEq, Repr

/-- The tail of the PATCH handler (projects.js lines 197-203): reject an
empty updates object, otherwise apply it through database.js
updateProject. -/
def finishPatch (db : DB) (projectId : String) (org : Option String)
    (upd : ProjectUpdates) (now : Nat) (isEmpty : Bool) : PatchRes × DB :=
  if isEmpty then (.badRequest "No valid updates provided", db)
  else
    match updateProject db projectId org upd now with
    | (p2, db2) => (.ok p2, db2)

/-- projects.js updateProject handler (lines 136-210). The external URL
parser is supplied as validURL. Developers and admins may stage every
field, with early 400 returns for a malformed url or an out-of-enum
status; an assigned client stages only status approved and any other client
request is a 403; staged updates are then applied, or a 400 when nothing
was staged. -/
def updateProjectH (validURL : String → Bool) (now : Nat) (db : DB)
    (payload : Option JwtPayload) (projectId : String) (body : PatchBody) :
    PatchRes × DB :=
  match payload with
  | none => (.unauthorized "Authentication required", db)
  | some user =>
    match getProjectById db projectId user.organizationId with
    | none => (.notFound "Project not found", db)
    | some project =>
      if hasRole (some user) ["developer", "admin"] then
        let u1 : ProjectUpdates :=
          if truthy body.name then { name := body.name } else {}
        let u2 := if truthy body.client then { u1 with client := body.client } else u1
        if truthy body.url && !(validURL (withScheme (body.url.getD ""))) then
          (.badRequest "Invalid URL format", db)
        else
          let u3 := if truthy body.url then
              { u2 with url := some (withScheme (body.url.getD "")) } else u2
          let u4 := if body.description.isSome then
              { u3 with description := body.description } else u3
          let u5 := if body.thumbnail.isSome then
              { u4 with thumbnail := body.thumbnail } else u4
          if truthy body.status && !(validStatuses.contains (body.status.getD "")) then
            (.badRequest "Invalid status", db)
          else
            let u6 := if truthy body.status then { u5 with status := body.status } else u5
            let u7 := match body.assignedClients with
              | some cs => { u6 with assignedClients := some cs }
              | none => u6
            finishPatch db projectId user.organizationId u7 now
              (u7 == ({} : ProjectUpdates))
      else if user.role == some "client" then
        if !(project.assignedClients.any (fun c => some c == user.userId)) then
          (.forbidden "Access denied to this project", db)
        else if body.status == some "approved" then
          finishPatch db projectId user.organizationId { status := some "approved" } now false
        else (.forbidden "Clients can only approve projects", db)
      else
        (.badRequest "No valid updates provided", db)

/-- JS test used by the feedback handler: !text || !text.trim(). -/
def blankText : Option String → Bool
  | none => true
  | some s => trimStr s == ""

/-- The type enum accepted by the feedback creation handler. -/
def validTypes : List String := ["general", "bug", "change", "approval"]

/-- The priority enum accepted by the feedback creation handler. -/
def validPriorities : List String := ["low", "medium", "high"]

/-- Responses of POST /projects/(id)/feedback. -/
inductive FeedbackRes where
  | unauthorized (error : String)
  | notFound (error : String)
  | forbidden (error : String)
  | badRequest (error : String)
  | created (f : Feedback)
deriving DecidableEq, Repr

/-- projects.js createFeedback handler (lines 390-480): check project
access, validate text, type and priority, store the feedback with status
resolved for approval type, then move a pending project to in-review and,
for an approval submitted by a client, to approved. The notification email
is an external effect with no bearing on the store. -/
def createFeedbackH (now : Nat) (db : DB) (payload : Option JwtPayload)
    (projectId uuid : String) (type priority text : Option String) :
    FeedbackRes × DB :=
  match payload with
  | none => (.unauthorized "Authentication required", db)
  | some user =>
    match getProjectById db projectId user.organizationId with
    | none => (.notFound "Project not found", db)
    | some project =>
      if user.role == some "client"
          && !(project.assignedClients.any (fun c => some c == user.userId)) then
        (.forbidden "Access denied", db)
      else if blankText text then
        (.badRequest "Feedback text is required", db)
      else if truthy type && !(validTypes.contains (type.getD "")) then
        (.badRequest "Invalid feedback type", db)
      else if truthy priority && !(validPriorities.contains (priority.getD "")) then
        (.badRequest "Invalid priority", db)
      else
        let made := createFeedback db
          { id := uuid
            projectId := projectId
            type := some (orDefault type "general")
            priority := some (orDefault priority "medium")
            text := trimStr (text.getD "")
            status := some (if type == some "approval" then "resolved" else "open")
            authorId := user.userId
            authorName := user.name
            authorRole := user.role } now
        let db1 := made.snd
        let db2 :=
          if project.status == "pending" then
            (updateProject db1 projectId user.organizationId
              { status := some "in-review" } now).snd
          else db1
        let db3 :=
          if type == some "approval" && user.role == some "client" then
            (updateProject db2 projectId user.organizationId
              { status := some "approved" } now).snd
          else db2
        (.created made.fst, db3)

/-- The email-format regex of users.js line 39, written out over the
string: no whitespace anywhere, exactly one at-sign with a nonempty local
part, and some dot inside the domain with nonempty text on both sides. -/
def emailRegexTest (s : String) : Bool :=
  let cs := s.toList
  let lpart := cs.takeWhile (fun c => c != '@')
  match cs.dropWhile (fun c => c != '@') with
  | [] => false
  | _ :: domain =>
    lpart != [] && domain.all (fun c => c != '@')
      && cs.all (fun c => !c.isWhitespace)
      && (List.range domain.length).any (fun i =>
        domain.getD i ' ' == '.' && decide (0 < i) && decide (i + 1 < domain.length))

/-- users.js lines 51-52: whether a previously stored invitation blocks a
new one for this email (present, unused and unexpired). -/
def activeInviteExists (db : DB) (now : Nat) (email : String) : Bool :=
  match getInvitationByEmail db email with
  | none => false
  | some i => !i.isUsed && now < i.expiresAt

/-- Responses of POST /users/invite; created carries the subset of the
invitation echoed to the caller plus the emailSent flag. -/
inductive InviteRes where
  | unauthorized (error : String)
  | forbidden (error : String)
  | badRequest (error : String)
  | created (id inviteEmail role : String) (expiresAt : Nat) (emailSent : Bool)
deriving DecidableEq, Repr

/-- users.js inviteUser handler (lines 17-98): developer or admin only,
validated email, no existing account and no active invitation for it; the
requested role defaults to client, must be client or developer, and
developer invitations need an admin caller. The fresh uuid, the generated
invite token and the outcome of the external email dispatch are supplied by
the caller. -/
def inviteUserH (now : Nat) (db : DB) (payload : Option JwtPayload)
    (uuid tokenStr : String) (emailOk : Bool)
    (inviteEmail role : Option String) (projectIds : Option (List String)) :
    InviteRes × DB :=
  match payload with
  | none => (.unauthorized "Authentication required", db)
  | some user =>
    if !(hasRole (some user) ["developer", "admin"]) then
      (.forbidden "Only developers can invite users", db)
    else if !(truthy inviteEmail) then (.badRequest "Email is required", db)
    else if !(emailRegexTest (inviteEmail.getD "")) then
      (.badRequest "Invalid email format", db)
    else
      match getUserByEmail db (inviteEmail.getD "") with
      | some _ => (.badRequest "A user with this email already exists", db)
      | none =>
        if activeInviteExists db now (inviteEmail.getD "") then
          (.badRequest "An active invitation already exists for this email", db)
        else
          let userRole := orDefault role "client"
          if !(["client", "developer"].contains userRole) then
            (.badRequest "Invalid role", db)
          else if userRole == "developer" && user.role != some "admin" then
            (.forbidden "Only admins can invite developers", db)
          else
            let made := createInvitation db
              { id := uuid
                email := inviteEmail.getD ""
                token := tokenStr
                role := some userRole
                projectIds := projectIds
                invitedBy := user.userId
                invitedByName := user.name
                organizationId := user.organizationId
                expiresAt := now + sevenDays } now
            let inv := made.fst
            (.created inv.id inv.email inv.role inv.expiresAt emailOk, made.snd)

/-- The body of PATCH /users/(id). -/
structure UserPatchBody where
  name : Option String := none
  role : Option String := none
  isActive : Option Bool := none
deriving DecidableEq, Repr

/-- Responses of PATCH /users/(id); the ok payload is what database.js
updateUser returned (null when the user vanished between read and
replace). -/
inductive UserPatchRes where
  | unauthorized (error : String)
  | notFound (error : String)
  | badRequest (error : String)
  | serverError (error : String)
  | ok (user : Option (List (String × JVal)))
deriving DecidableEq, Repr

/-- users.js updateUser handler (lines 206-260): name is stageable by the
user themself or an admin; a role change is admin-only, must differ from
the current role and be in the enum (with an early 400 on a bad value); the
isActive flag is admin-only and must be an actual boolean; an empty staged
object is a 400, otherwise the merge is applied through database.js
updateUser. -/
def updateUserH (now : Nat) (db : DB) (payload : Option JwtPayload)
    (userId : String) (body : UserPatchBody) : UserPatchRes × DB :=
  match payload with
  | none => (.unauthorized "Authentication required", db)
  | some user =>
    match getUserById db userId with
    | none => (.notFound "User not found", db)
    | some target =>
      let isSelf := user.userId == some userId
      let isAdmin := user.role == some "admin"
      let u1 : UserUpdates :=
        if truthy body.name && (isSelf || isAdmin) then { name := body.name } else {}
      if truthy body.role && isAdmin && body.role != some target.role
          && !(["client", "developer", "admin"].contains (body.role.getD "")) then
        (.badRequest "Invalid role", db)
      else
        let u2 := if truthy body.role && isAdmin && body.role != some target.role then
            { u1 with role := body.role } else u1
        let u3 := if body.isActive.isSome && isAdmin then
            { u2 with isActive := body.isActive } else u2
        if u3 == ({} : UserUpdates) then
          (.badRequest "No valid updates provided", db)
        else
          match updateUserDb db userId target.email u3 now with
          | .ok u2doc db2 => (.ok (some (sanitizeUser (userToJson u2doc))), db2)
          | .notFound db2 => (.ok none, db2)
          | .thrown => (.serverError "Internal server error", db)

/-- database.js getAllUsers (lines 139-148) as rendered by the users list
handler: every user of the organization, sanitized. The ORDER BY clause
only reorders the rows and is immaterial to the properties below. -/
def getAllUsersJson (db : DB) (org : Option String) : List (List (String × JVal)) :=
  let o := org.getD "stevensit"
  (db.users.filter (fun u => u.organizationId == o)).map
    (fun u => sanitizeUser (userToJson u))

/-- database.js getClientUsers (lines 150-159) as rendered by the clients
list handler; the organization parameter again defaults to stevensit. -/
def getClientUsersJson (db : DB) (org : Option String) : List (List (String × JVal)) :=
  let o := org.getD "stevensit"
  (db.users.filter (fun u => u.organizationId == o && u.role == "client")).map
    (fun u => sanitizeUser (userToJson u))

/-- A user document for evaluating token issuance. -/
def c4User : User := mkUser
  { id := "u0"
    email := "dev@example.com"
    name := "Dev"
    passwordHash := { salt := "s0", pw := "password123" }
    role := some "developer"
    organizationId := none
    assignedProjects := none } 0

/-- The bcrypt hash stored for the C1 user. -/
def c1Hash : BHash := { salt := "s1", pw := "correct-horse-battery" }

/-- A user created through database.js createUser: isActive is true and no
status field is ever written. -/
def c1User : User := mkUser
  { id := "u1"
    email := "Alice@Example.com"
    name := "Alice"
    passwordHash := c1Hash
    role := some "client"
    organizationId := some "stevensit"
    assignedProjects := some [] } 1000

/-- A store holding exactly the C1 user. -/
def c1Db : DB := { users := [c1User], projects := [], feedback := [], invitations := [] }

/-- A user document whose status field was set to active out of band, so
that the login handler can succeed at all. -/
def c2User : User :=
  { mkUser
      { id := "u2"
        email := "bob@example.com"
        name := "Bob"
        passwordHash := { salt := "s2", pw := "longpassword1" }
        role := some "client"
        organizationId := some "stevensit"
        assignedProjects := some [] } 0
    with status := some "active" }

/-- A store holding exactly the C2 user. -/
def c2Db : DB := { users := [c2User], projects := [], feedback := [], invitations := [] }

/-- The token the login handler issues for the C2 user at instant 0 with no
configured secret: its payload has no organizationId claim. -/
def c2Token : SignedToken :=
  { payload :=
      { userId := some "u2"
        email := some "bob@example.com"
        name := some "Bob"
        role := some "client"
        organizationId := none }
    secret := defaultSecret
    exp := sevenDays }

/-- The target user of the C10 witness scenario. -/
def c10Target : User := mkUser
  { id := "t1"
    email := "target@example.com"
    name := "Tara"
    passwordHash := { salt := "s3", pw := "password-t" }
    role := some "client"
    organizationId := some "stevensit"
    assignedProjects := some [] } 0

/-- Store for the C10 witness. -/
def c10Db : DB := { users := [c10Target], projects := [], feedback := [], invitations := [] }

/-- A developer token payload that is neither admin nor the target. -/
def c10Actor : JwtPayload :=
  { userId := some "dev9"
    email := some "dev@example.com"
    name := some "Devon"
    role := some "developer"
    organizationId := some "stevensit" }

/-- Empty store for the C8 witness. -/
def c8Db : DB := { users := [], projects := [], feedback := [], invitations := [] }

/-- Admin token payload for the C8 witness. -/
def c8Admin : JwtPayload :=
  { userId := some "a1"
    email := some "admin@example.com"
    name := some "Ada"
    role := some "admin"
    organizationId := some "stevensit" }

/-- Project of the C3 scenario, assigned to client c1. -/
def c3Project : Project :=
  { id := "p1"
    name := "Acme Site"
    client := "Acme Corp"
    url := "https://acme.example"
    description := ""
    thumbnail := ""
    status := "in-review"
    organizationId := "stevensit"
    createdBy := "d1"
    assignedClients := ["c1"]
    assignedDevelopers := ["d1"]
    createdAt := 0
    updatedAt := 0 }

/-- Store of the C3 scenario. -/
def c3Db : DB := { users := [], projects := [c3Project], feedback := [], invitations := [] }

/-- Token payload of the assigned client c1. -/
def c3Client : JwtPayload :=
  { userId := some "c1"
    email := some "cleo@example.com"
    name := some "Cleo"
    role := some "client"
    organizationId := some "stevensit" }

/-- Pending project for the C7 witness, assigned to client c7. -/
def c7Project : Project :=
  { id := "p2"
    name := "Beta Site"
    client := "Beta"
    url := "https://beta.example"
    description := ""
    thumbnail := ""
    status := "pending"
    organizationId := "stevensit"
    createdBy := "d1"
    assignedClients := ["c7"]
    assignedDevelopers := ["d1"]
    createdAt := 0
    updatedAt := 0 }

/-- Store for the C7 witness. -/
def c7Db : DB := { users := [], projects := [c7Project], feedback := [], invitations := [] }

/-- Assigned client for the C7 witness. -/
def c7Client : JwtPayload :=
  { userId := some "c7"
    email := some "c7@example.com"
    name := some "Cass"
    role := some "client"
    organizationId := some "stevensit" }

/-- Whether a register call produced a 201 created response. -/
def isCreated : RegisterRes → Bool
  | .created _ _ => true
  | _ => false

/-- The user document register creates from an invitation. -/
def registeredUser (inv : Invitation) (uuid salt nm pw : String) (now : Nat) : User :=
  mkUser
    { id := uuid
      email := inv.email
      name := nm
      passwordHash := { salt := salt, pw := pw }
      role := some inv.role
      organizationId := some inv.organizationId
      assignedProjects := some inv.projectIds } now

/-- The invitation document after markInvitationUsed. -/
def consumedInvitation (inv : Invitation) (now : Nat) : Invitation :=
  { inv with isUsed := true, acceptedAt := some now }

/-- The store register leaves behind on its success path: the new user
inserted, the invitation consumed, the preassigned projects back-filled. -/
def afterRegister (db : DB) (inv : Invitation) (uuid salt nm pw : String)
    (now : Nat) : DB :=
  assignInvitedProjects
    { db with
      users := db.users ++ [registeredUser inv uuid salt nm pw now]
      invitations := db.invitations.map (fun j =>
        if j.id == inv.id then consumedInvitation inv now else j) }
    inv uuid now

/-- Invitation for the C6 witness. -/
def c6Inv : Invitation :=
  { id := "i6"
    email := "newbie@example.com"
    token := "tok6"
    role := "client"
    projectIds := []
    invitedBy := some "a1"
    invitedByName := some "Ada"
    organizationId := "stevensit"
    expiresAt := 1000
    createdAt := 0
    acceptedAt := none
    isUsed := false }

/-- Store for the C6 witness: the one invitation, no users. -/
def c6Db : DB := { users := [], projects := [], feedback := [], invitations := [c6Inv] }

/-- The JSON object of a project document, as returned verbatim by the
project handlers; its key set is fixed and has no passwordHash. -/
def projectToJson (p : Project) : List (String × JVal) :=
  [("id", JVal.s p.id), ("name", JVal.s p.name), ("client", JVal.s p.client),
   ("url", JVal.s p.url), ("description", JVal.s p.description),
   ("thumbnail", JVal.s p.thumbnail), ("status", JVal.s p.status),
   ("organizationId", JVal.s p.organizationId), ("createdBy", JVal.s p.createdBy),
   ("assignedClients", JVal.list p.assignedClients),
   ("assignedDevelopers", JVal.list p.assignedDevelopers),
   ("createdAt", JVal.n p.createdAt), ("updatedAt", JVal.n p.updatedAt)]

/-- The JSON object of a feedback document, as returned verbatim by the
feedback handlers. -/
def feedbackToJson (f : Feedback) : List (String × JVal) :=
  [("id", JVal.s f.id), ("projectId", JVal.s f.projectId),
   ("type", JVal.s f.type), ("priority", JVal.s f.priority),
   ("text", JVal.s f.text), ("status", JVal.s f.status),
   ("authorId", match f.authorId with | none => JVal.null | some a => JVal.s a),
   ("authorName", match f.authorName with | none => JVal.null | some a => JVal.s a),
   ("authorRole", match f.authorRole with | none => JVal.null | some a => JVal.s a),
   ("createdAt", JVal.n f.createdAt), ("updatedAt", JVal.n f.updatedAt),
   ("resolvedAt", match f.resolvedAt with | none => JVal.null | some a => JVal.n a),
   ("resolvedBy", match f.resolvedBy with | none => JVal.null | some a => JVal.s a)]

/-- The safeInvitations subset echoed by the invitation list handler
(users.js lines 183-190). -/
def invitationSummaryJson (i : Invitation) : List (String × JVal) :=
  [("id", JVal.s i.id), ("email", JVal.s i.email), ("role", JVal.s i.role),
   ("invitedByName", match i.invitedByName with | none => JVal.null | some a => JVal.s a),
   ("createdAt", JVal.n i.createdAt), ("expiresAt", JVal.n i.expiresAt)]

/-- Whether a login response body carries a passwordHash key. -/
def loginLeaks : LoginRes → Bool
  | .ok u _ => hasKey "passwordHash" u
  | _ => false

/-- Whether a register response body carries a passwordHash key. -/
def registerLeaks : RegisterRes → Bool
  | .created u _ => hasKey "passwordHash" u
  | _ => false

/-- Whether a me response body carries a passwordHash key. -/
def meLeaks : MeRes → Bool
  | .ok u => hasKey "passwordHash" u
  | _ => false

/-- Whether a refresh response body carries a passwordHash key. -/
def refreshLeaks : RefreshRes → Bool
  | .ok u _ => hasKey "passwordHash" u
  | _ => false

/-- Whether a user-update response body carries a passwordHash key. -/
def userPatchLeaks : UserPatchRes → Bool
  | .ok (some u) => hasKey "passwordHash" u
  | _ => false

/-! ## Lemmas and theorems -/

/-- Sanitizing a rendered user object removes the passwordHash key. -/
theorem hasKey_pw_sanitize (o : List (String × JVal)) :
    hasKey "passwordHash" (sanitizeUser o) = false := by
  induction o with
  | nil => rfl
  | cons kv rest ih =>
    by_cases h : kv.fst = "passwordHash"
    · simp [sanitizeUser, hasKey, h] at ih ⊢
    · simp [sanitizeUser, hasKey, h] at ih ⊢

/-- Claim C4, counterexample: with JWT_SECRET absent from the environment,
token issuance succeeds silently and the token is signed with the
hard-coded fallback string, a publicly known constant; there is no fatal
startup behaviour. This contradicts the claim that a missing secret must
not silently produce a predictably-signed token. -/
theorem c4_missing_secret_signs_with_default :
    (generateToken none c4User 0).secret = "development-secret-change-me"
      ∧ loginJwtSecret none = "development-secret-change-me" := by
  constructor
  · rfl
  · decide

/-- Claim C4, amended: when JWT_SECRET is unset or empty, both the shared
token issuer and the login handler silently fall back to signing with the
hard-coded string development-secret-change-me; issuance always succeeds
and nothing fails at startup. -/
theorem c4_amended_fallback_secret (env : Option String) (u : User) (now : Nat)
    (h : truthy env = false) :
    (generateToken env u now).secret = defaultSecret
      ∧ loginJwtSecret env = defaultSecret
      ∧ (generateToken env u now).payload.userId = some u.id := by
  have hsecret : jwtSecretOf env = defaultSecret := by
    cases env with
    | none => rfl
    | some s =>
      simp [truthy] at h
      simp [jwtSecretOf, h]
  refine ⟨?_, ?_, rfl⟩
  · simp [generateToken, hsecret]
  · simp only [loginJwtSecret, hsecret]
    decide

/-- Witness for the amended C4 theorem at a concrete unset environment. -/
theorem c4_amended_fallback_secret_witness :
    (generateToken none c4User 0).secret = defaultSecret
      ∧ loginJwtSecret none = defaultSecret
      ∧ (generateToken none c4User 0).payload.userId = some "u0" :=
  c4_amended_fallback_secret none c4User 0 (by decide)

/-- Claim C5: the invite token is a deterministic function of the
Math.random draw sequence. Whoever can reproduce the 64 Math.random values
reproduces the token: with every draw landing in the first alphabet slot
the token is 64 letters A, and in general the token is always exactly 64
characters long. Math.random is not a cryptographic source, so the claimed
256 bits of entropy are not delivered by this construction. -/
theorem c5_invite_token_deterministic :
    generateInviteToken (fun _ => 0)
        = "AAAAAAAAAAAAAAAAAAAAAAAAAAAAAAAAAAAAAAAAAAAAAAAAAAAAAAAAAAAAAAAA"
      ∧ ∀ draws : Nat → Nat, (generateInviteToken draws).length = 64 := by
  constructor
  · decide
  · intro draws
    simp [generateInviteToken, String.length]

/-- Claim C1: the login handler tests user.status, a field createUser never
writes, instead of isActive. Evaluated on a user created by createUser with
the correct email and password: the account is active and the password
matches, yet login answers 403 Account is disabled instead of 200. -/
theorem c1_created_user_login_rejected :
    login none 2000 c1Db (some "alice@example.com") (some "correct-horse-battery")
        = .forbidden "Account is disabled"
      ∧ c1User.isActive = true
      ∧ bcryptCompare "correct-horse-battery" c1User.passwordHash = true
      ∧ c1User.status = none := by
  refine ⟨?_, by decide, by decide, by decide⟩
  decide

/-- Claim C2: a successful login issues a token whose verified claims carry
the userId and role of the user but no organizationId claim at all, because
the login handler signs an inline payload without it, even though the user
record has organizationId stevensit. The claimed round-trip of
organizationId fails. -/
theorem c2_login_token_lacks_organization :
    login none 0 c2Db (some "bob@example.com") (some "longpassword1")
        = .ok (sanitizeUser (userToJson c2User)) c2Token
      ∧ (verifyToken none 0 c2Token).map JwtPayload.userId = some (some "u2")
      ∧ (verifyToken none 0 c2Token).map JwtPayload.role = some (some "client")
      ∧ (verifyToken none 0 c2Token).map JwtPayload.organizationId = some none
      ∧ c2User.organizationId = "stevensit" := by
  refine ⟨?_, by decide, by decide, by decide, by decide⟩
  decide

/-- Claim C10: when the authenticated actor is neither an admin nor the
target user, no requested field is staged, the store is left untouched and
the handler answers 400 No valid updates provided, whatever combination of
name, role and isActive the body carries. -/
theorem c10_update_user_foreign_actor (now : Nat) (db : DB) (user : JwtPayload)
    (userId : String) (target : User) (body : UserPatchBody)
    (hTarget : getUserById db userId = some target)
    (hNotAdmin : user.role ≠ some "admin")
    (hNotSelf : user.userId ≠ some userId) :
    updateUserH now db (some user) userId body
      = (.badRequest "No valid updates provided", db) := by
  have hA : (user.role == some "admin") = false := by
    simpa using hNotAdmin
  have hS : (user.userId == some userId) = false := by
    simpa using hNotSelf
  simp [updateUserH, hTarget, hA, hS]

/-- Witness for C10 at a concrete store, actor and full request body. -/
theorem c10_update_user_foreign_actor_witness :
    updateUserH 3 c10Db (some c10Actor) "t1"
        { name := some "X", role := some "admin", isActive := some false }
      = (.badRequest "No valid updates provided", c10Db) :=
  c10_update_user_foreign_actor 3 c10Db c10Actor "t1" c10Target
    { name := some "X", role := some "admin", isActive := some false }
    (by decide) (by decide) (by decide)

/-- Claim C8: with an authenticated developer-or-admin caller and a request
passing the email and duplicate checks, inviting a client succeeds for any
such caller; inviting a developer succeeds for an admin and is a 403 for a
developer; and requesting the admin role is rejected 400 Invalid role for
every caller. -/
theorem c8_invite_role_policy (now : Nat) (db : DB) (user : JwtPayload)
    (uuid tokenStr : String) (emailOk : Bool) (inviteEmail : String)
    (projectIds : Option (List String))
    (hRole : hasRole (some user) ["developer", "admin"] = true)
    (hEmail : inviteEmail ≠ "")
    (hRegex : emailRegexTest inviteEmail = true)
    (hNoUser : getUserByEmail db inviteEmail = none)
    (hNoInv : activeInviteExists db now inviteEmail = false) :
    ((inviteUserH now db (some user) uuid tokenStr emailOk (some inviteEmail)
        (some "client") projectIds).fst
      = .created uuid (toLowerStr inviteEmail) "client" (now + sevenDays) emailOk)
    ∧ (user.role = some "admin" →
      (inviteUserH now db (some user) uuid tokenStr emailOk (some inviteEmail)
          (some "developer") projectIds).fst
        = .created uuid (toLowerStr inviteEmail) "developer" (now + sevenDays) emailOk)
    ∧ (user.role = some "developer" →
      inviteUserH now db (some user) uuid tokenStr emailOk (some inviteEmail)
          (some "developer") projectIds
        = (.forbidden "Only admins can invite developers", db))
    ∧ (inviteUserH now db (some user) uuid tokenStr emailOk (some inviteEmail)
          (some "admin") projectIds
        = (.badRequest "Invalid role", db)) := by
  have htE : truthy (some inviteEmail) = true := by simp [truthy, hEmail]
  have hcl : orDefault (some "client") "client" = "client" := by decide
  have hdev : orDefault (some "developer") "client" = "developer" := by decide
  have hadm : orDefault (some "admin") "client" = "admin" := by decide
  have hc1 : (["client", "developer"].contains "client") = true := by decide
  have hc2 : (["client", "developer"].contains "developer") = true := by decide
  have hc3 : (["client", "developer"].contains "admin") = false := by decide
  have hne1 : (("client" : String) == "developer") = false := by decide
  refine ⟨?_, ?_, ?_, ?_⟩
  · simp [inviteUserH, hRole, htE, hRegex, hNoUser, hNoInv, hcl, hc1, hne1,
      createInvitation, mkInvitation]
  · intro h
    simp [inviteUserH, hRole, htE, hRegex, hNoUser, hNoInv, hdev, hc2, h,
      createInvitation, mkInvitation]
  · intro h
    simp [inviteUserH, hRole, htE, hRegex, hNoUser, hNoInv, hdev, hc2, h,
      createInvitation, mkInvitation]
  · simp [inviteUserH, hRole, htE, hRegex, hNoUser, hNoInv, hadm, hc3]

/-- Witness for C8 with an admin caller, a fresh email and an empty
store. -/
theorem c8_invite_role_policy_witness :
    ((inviteUserH 5 c8Db (some c8Admin) "i1" "tok1" true (some "New@Client.com")
        (some "client") none).fst
      = .created "i1" (toLowerStr "New@Client.com") "client" (5 + sevenDays) true)
    ∧ (c8Admin.role = some "admin" →
      (inviteUserH 5 c8Db (some c8Admin) "i1" "tok1" true (some "New@Client.com")
          (some "developer") none).fst
        = .created "i1" (toLowerStr "New@Client.com") "developer" (5 + sevenDays) true)
    ∧ (c8Admin.role = some "developer" →
      inviteUserH 5 c8Db (some c8Admin) "i1" "tok1" true (some "New@Client.com")
          (some "developer") none
        = (.forbidden "Only admins can invite developers", c8Db))
    ∧ (inviteUserH 5 c8Db (some c8Admin) "i1" "tok1" true (some "New@Client.com")
          (some "admin") none
        = (.badRequest "Invalid role", c8Db)) :=
  c8_invite_role_policy 5 c8Db c8Admin "i1" "tok1" true "New@Client.com" none
    (by decide) (by decide) (by decide) (by decide) (by decide)

/-- Claim C3, counterexample: an assigned client sends status approved
together with the disallowed field name Evil in the same PATCH. The claim
requires the request to be rejected as a policy violation, but the handler
answers 200 ok and silently drops the extra field: the stored project keeps
the name Acme Site and only the status changed. -/
theorem c3_extra_field_not_rejected :
    (updateProjectH (fun _ => true) 7 c3Db (some c3Client) "p1"
        { status := some "approved", name := some "Evil" }).fst
      = .ok (some { c3Project with status := "approved", updatedAt := 7 }) := by
  decide

/-- Claim C3, amended: for an assigned client, a PATCH whose status field
is approved succeeds and applies exactly the status change, silently
ignoring every other field of the request; a PATCH whose status is anything
else (or absent) is rejected 403 Clients can only approve projects with the
store untouched. -/
theorem c3_client_patch_only_status (validURL : String → Bool) (now : Nat)
    (db : DB) (user : JwtPayload) (projectId : String) (body : PatchBody)
    (project : Project)
    (hRole : user.role = some "client")
    (hProj : getProjectById db projectId user.organizationId = some project)
    (hAssigned : project.assignedClients.any (fun c => some c == user.userId) = true) :
    (body.status = some "approved" →
      updateProjectH validURL now db (some user) projectId body
        = (.ok (some { project with status := "approved", updatedAt := now }),
           { db with projects := db.projects.map (fun q =>
               if q.id == project.id && q.organizationId == project.organizationId
               then { project with status := "approved", updatedAt := now } else q) }))
    ∧ (body.status ≠ some "approved" →
      updateProjectH validURL now db (some user) projectId body
        = (.forbidden "Clients can only approve projects", db)) := by
  have hR : hasRole (some user) ["developer", "admin"] = false := by
    simp [hasRole, hRole]
  have hC : (user.role == some "client") = true := by simp [hRole]
  constructor
  · intro hs
    simp [updateProjectH, hR, hC, hProj, hAssigned, hs, finishPatch,
      updateProject, applyProjectUpdates]
  · intro hs
    have hs2 : (body.status == some "approved") = false := by simpa using hs
    simp [updateProjectH, hR, hC, hProj, hAssigned, hs2]

/-- Witness for the amended C3 theorem: the same scenario as the
counterexample, applied through the general theorem. -/
theorem c3_client_patch_only_status_witness :
    (( { status := some "approved", name := some "Evil" } : PatchBody).status
          = some "approved" →
      updateProjectH (fun _ => true) 7 c3Db (some c3Client) "p1"
          { status := some "approved", name := some "Evil" }
        = (.ok (some { c3Project with status := "approved", updatedAt := 7 }),
           { c3Db with projects := c3Db.projects.map (fun q =>
               if q.id == c3Project.id && q.organizationId == c3Project.organizationId
               then { c3Project with status := "approved", updatedAt := 7 } else q) }))
    ∧ (( { status := some "approved", name := some "Evil" } : PatchBody).status
          ≠ some "approved" →
      updateProjectH (fun _ => true) 7 c3Db (some c3Client) "p1"
          { status := some "approved", name := some "Evil" }
        = (.forbidden "Clients can only approve projects", c3Db)) :=
  c3_client_patch_only_status (fun _ => true) 7 c3Db c3Client "p1"
    { status := some "approved", name := some "Evil" } c3Project
    (by decide) (by decide) (by decide)

/-- The head of a list is a member. -/
theorem head?_eq_some_mem {α : Type} {l : List α} {a : α}
    (h : l.head? = some a) : a ∈ l := by
  cases l with
  | nil => simp at h
  | cons x xs =>
    simp at h
    simp [h]

/-- Replacing every element that satisfies the filter predicate with a
fixed element that itself satisfies it moves that element to the head of
the filtered list, provided the filter was nonempty. -/
theorem head_filter_map_replace {α : Type} (l : List α) (pred : α → Bool)
    (b : α) (hb : pred b = true)
    (hne : (l.filter pred).head?.isSome = true) :
    ((l.map (fun q => if pred q then b else q)).filter pred).head? = some b := by
  induction l with
  | nil => simp at hne
  | cons x xs ih =>
    by_cases hx : pred x = true
    · simp [hx, hb]
    · have hx' : pred x = false := by simpa using hx
      simp only [List.map_cons, List.filter_cons, hx', if_neg, Bool.false_eq_true,
        not_false_iff, ite_false] at hne ⊢
      exact ih hne

/-- Reading back through getProjectById after database.js updateProject:
the write targets exactly the documents the read matches, so the read
returns the merged project, whose id and organizationId are unchanged. -/
theorem getProjectById_update (db : DB) (pid : String) (org : Option String)
    (u : ProjectUpdates) (now : Nat) (p : Project)
    (h : getProjectById db pid org = some p) :
    (updateProject db pid org u now).fst = some (applyProjectUpdates p u now)
    ∧ getProjectById (updateProject db pid org u now).snd pid org
        = some (applyProjectUpdates p u now) := by
  have h' : (db.projects.filter
      (fun q => q.id == pid && q.organizationId == org.getD "stevensit")).head?
      = some p := by
    simpa [getProjectById] using h
  have hmem : p ∈ db.projects.filter
      (fun q => q.id == pid && q.organizationId == org.getD "stevensit") :=
    head?_eq_some_mem h'
  have hpred : (p.id == pid && p.organizationId == org.getD "stevensit") = true :=
    (List.mem_filter.mp hmem).2
  have hpred' : p.id = pid ∧ p.organizationId = org.getD "stevensit" := by
    simpa using hpred
  have hid := hpred'.1
  have horg := hpred'.2
  constructor
  · simp [updateProject, h]
  · simp only [updateProject, h]
    simp only [getProjectById]
    have hfun : (fun q : Project =>
        if q.id == p.id && q.organizationId == p.organizationId
        then applyProjectUpdates p u now else q)
        = (fun q : Project =>
          if q.id == pid && q.organizationId == org.getD "stevensit"
          then applyProjectUpdates p u now else q) := by
      funext q
      rw [hid, horg]
    rw [hfun]
    apply head_filter_map_replace
    · simp [applyProjectUpdates, hid, horg]
    · simp [h']

/-- After two successive status writes (to in-review, then conditionally to
approved), the project reads back with the final status and nothing else
changed. -/
theorem status_after_two_updates (db : DB) (pid : String) (org : Option String)
    (project : Project) (now : Nat) (second : Bool)
    (h : getProjectById db pid org = some project) :
    getProjectById
        (if second then
          (updateProject
            ((updateProject db pid org { status := some "in-review" } now).snd)
            pid org { status := some "approved" } now).snd
         else (updateProject db pid org { status := some "in-review" } now).snd)
        pid org
      = some { project with
          status := if second then "approved" else "in-review"
          updatedAt := now } := by
  have h1 := (getProjectById_update db pid org { status := some "in-review" } now
    project h).2
  have happ1 : applyProjectUpdates project { status := some "in-review" } now
      = { project with status := "in-review", updatedAt := now } := by
    simp [applyProjectUpdates]
  cases second with
  | false =>
    simp only [Bool.false_eq_true, if_false, ite_false]
    rw [h1, happ1]
  | true =>
    have h2 := (getProjectById_update _ pid org { status := some "approved" } now
      _ h1).2
    simp only [if_true, ite_true]
    rw [h2]
    simp [applyProjectUpdates]

/-- Claim C7: creating feedback on a pending project (by any author with
access, valid text, type and priority) leaves the project in-review, except
that an approval-type feedback from a client leaves it approved, in the
same call. -/
theorem c7_feedback_on_pending (now : Nat) (db : DB) (user : JwtPayload)
    (projectId uuid : String) (type priority text : Option String)
    (project : Project)
    (hProj : getProjectById db projectId user.organizationId = some project)
    (hPending : project.status = "pending")
    (hAccess : (user.role == some "client"
        && !(project.assignedClients.any (fun c => some c == user.userId))) = false)
    (hText : blankText text = false)
    (hType : (truthy type && !(validTypes.contains (type.getD ""))) = false)
    (hPrio : (truthy priority && !(validPriorities.contains (priority.getD ""))) = false) :
    getProjectById
        (createFeedbackH now db (some user) projectId uuid type priority text).snd
        projectId user.organizationId
      = some { project with
          status := if type == some "approval" && user.role == some "client"
            then "approved" else "in-review"
          updatedAt := now } := by
  have hPend : (project.status == "pending") = true := by simp [hPending]
  have hProj1 : getProjectById
      (createFeedback db
        { id := uuid
          projectId := projectId
          type := some (orDefault type "general")
          priority := some (orDefault priority "medium")
          text := trimStr (text.getD "")
          status := some (if type == some "approval" then "resolved" else "open")
          authorId := user.userId
          authorName := user.name
          authorRole := user.role } now).snd
      projectId user.organizationId = some project := by
    simpa [createFeedback, getProjectById] using hProj
  simp only [createFeedbackH, hProj, hAccess, hText, hType, hPrio, hPend,
    Bool.false_eq_true, if_false, ite_false, if_true, ite_true]
  exact status_after_two_updates _ projectId user.organizationId project now
    (type == some "approval" && user.role == some "client") hProj1

/-- Witness for C7: an approval-type feedback by the assigned client on a
pending project. -/
theorem c7_feedback_on_pending_witness :
    getProjectById
        (createFeedbackH 9 c7Db (some c7Client) "p2" "f1"
          (some "approval") (some "high") (some "Looks great")).snd
        "p2" c7Client.organizationId
      = some { c7Project with
          status := if (some "approval" : Option String) == some "approval"
              && c7Client.role == some "client" then "approved" else "in-review"
          updatedAt := 9 } :=
  c7_feedback_on_pending 9 c7Db c7Client "p2" "f1"
    (some "approval") (some "high") (some "Looks great") c7Project
    (by decide) (by decide) (by decide) (by decide) (by decide) (by decide)

/-- When the only element of a list satisfying the predicate is a, and a is
present and satisfies it, the filtered list starts with a. -/
theorem head_filter_of_unique {α : Type} (pred : α → Bool) (a : α) :
    ∀ l : List α, a ∈ l → pred a = true →
      (∀ x ∈ l, pred x = true → x = a) →
      (l.filter pred).head? = some a := by
  intro l
  induction l with
  | nil => intro h; simp at h
  | cons x xs ih =>
    intro hmem hpa huniq
    by_cases hx : pred x = true
    · have hxa : x = a := huniq x (by simp) hx
      simp [List.filter_cons, hx, hxa, hpa]
    · have hx' : pred x = false := by simpa using hx
      have hmem' : a ∈ xs := by
        rcases List.mem_cons.mp hmem with h | h
        · rw [h] at hpa
          rw [hpa] at hx'
          exact absurd hx' (by simp)
        · exact h
      simp only [List.filter_cons, hx', Bool.false_eq_true, if_false, ite_false]
      exact ih hmem' hpa (fun y hy hpy => huniq y (List.mem_cons_of_mem _ hy) hpy)

/-- Folding the newest-invitation step over a list whose elements all equal
a, starting from a, stays at a. -/
theorem foldl_newest_all_eq (a : Invitation) :
    ∀ l : List Invitation, (∀ x ∈ l, x = a) →
      l.foldl newestStep (some a) = some a := by
  intro l
  induction l with
  | nil => intro _; rfl
  | cons x xs ih =>
    intro hall
    have hx : x = a := hall x (by simp)
    have hstep : newestStep (some a) x = some a := by
      rw [hx]
      simp [newestStep]
    rw [List.foldl_cons, hstep]
    exact ih (fun y hy => hall y (by simp [hy]))

/-- The newest-first query over a filter whose only possible match is a
returns a. -/
theorem newest_filter_of_unique (pred : Invitation → Bool) (a : Invitation) :
    ∀ l : List Invitation, a ∈ l → pred a = true →
      (∀ x ∈ l, pred x = true → x = a) →
      (l.filter pred).foldl newestStep none = some a := by
  intro l
  induction l with
  | nil => intro h; simp at h
  | cons x xs ih =>
    intro hmem hpa huniq
    by_cases hx : pred x = true
    · have hxa : x = a := huniq x (by simp) hx
      simp only [List.filter_cons, hx, if_true, ite_true, List.foldl_cons]
      have hstart : newestStep none x = some a := by rw [hxa]; rfl
      rw [hstart]
      apply foldl_newest_all_eq
      intro y hy
      have hy' := List.mem_filter.mp hy
      exact huniq y (List.mem_cons_of_mem _ hy'.1) hy'.2
    · have hx' : pred x = false := by simpa using hx
      have hmem' : a ∈ xs := by
        rcases List.mem_cons.mp hmem with h | h
        · rw [h] at hpa
          rw [hpa] at hx'
          exact absurd hx' (by simp)
        · exact h
      simp only [List.filter_cons, hx', Bool.false_eq_true, if_false, ite_false]
      exact ih hmem' hpa (fun y hy hpy => huniq y (List.mem_cons_of_mem _ hy) hpy)

/-- database.js updateProject writes only the projects container. -/
theorem updateProject_users (db : DB) (id : String) (org : Option String)
    (u : ProjectUpdates) (now : Nat) :
    (updateProject db id org u now).snd.users = db.users := by
  unfold updateProject
  cases getProjectById db id org <;> rfl

/-- database.js updateProject leaves the invitations container alone. -/
theorem updateProject_invitations (db : DB) (id : String) (org : Option String)
    (u : ProjectUpdates) (now : Nat) :
    (updateProject db id org u now).snd.invitations = db.invitations := by
  unfold updateProject
  cases getProjectById db id org <;> rfl

/-- The project back-fill loop of register writes only projects. -/
theorem assignInvitedProjects_users (db : DB) (inv : Invitation)
    (userId : String) (now : Nat) :
    (assignInvitedProjects db inv userId now).users = db.users := by
  unfold assignInvitedProjects
  generalize inv.projectIds = pids
  induction pids generalizing db with
  | nil => rfl
  | cons p ps ih =>
    rw [List.foldl_cons, ih]
    cases h : getProjectById db p (some inv.organizationId) with
    | none => simp [h]
    | some proj => simp [h, updateProject_users]

/-- The project back-fill loop of register leaves invitations alone. -/
theorem assignInvitedProjects_invitations (db : DB) (inv : Invitation)
    (userId : String) (now : Nat) :
    (assignInvitedProjects db inv userId now).invitations = db.invitations := by
  unfold assignInvitedProjects
  generalize inv.projectIds = pids
  induction pids generalizing db with
  | nil => rfl
  | cons p ps ih =>
    rw [List.foldl_cons, ih]
    cases h : getProjectById db p (some inv.organizationId) with
    | none => simp [h]
    | some proj => simp [h, updateProject_invitations]

/-- Claim C6: with a valid, unexpired, unused invitation whose token and
email occur on no other invitation document and whose email has no account
yet, the first register call succeeds (201 created) and adds exactly one
user; an immediately following register call with the same token answers
400 Invalid or expired invitation token and leaves the store exactly as the
first call left it, so no second user is created. -/
theorem c6_register_single_use
    (env : Option String) (now now2 : Nat) (db : DB)
    (uuid salt uuid2 salt2 t nm pw nm2 pw2 : String)
    (inv : Invitation)
    (hmem : inv ∈ db.invitations)
    (htok : inv.token = t)
    (hunused : inv.isUsed = false)
    (htokUniq : ∀ j ∈ db.invitations, j.token = t → j = inv)
    (hlow : toLowerStr inv.email = inv.email)
    (hemailUniq : ∀ j ∈ db.invitations, j.email = inv.email → j = inv)
    (hexp : ¬ inv.expiresAt < now)
    (hnoUser : getUserByEmail db inv.email = none)
    (ht : t ≠ "") (hnm : nm ≠ "") (hpw : ¬ pw.length < 8)
    (hnm2 : nm2 ≠ "") (hpw2 : ¬ pw2.length < 8) :
    isCreated (register env now db uuid salt (some t) (some nm) (some pw)).fst = true
    ∧ (register env now db uuid salt (some t) (some nm) (some pw)).snd.users.length
        = db.users.length + 1
    ∧ register env now2 (register env now db uuid salt (some t) (some nm) (some pw)).snd
        uuid2 salt2 (some t) (some nm2) (some pw2)
      = (.badRequest "Invalid or expired invitation token",
         (register env now db uuid salt (some t) (some nm) (some pw)).snd) := by
  have hpw0 : pw ≠ "" := by
    intro he
    apply hpw
    rw [he]
    decide
  have hpw20 : pw2 ≠ "" := by
    intro he
    apply hpw2
    rw [he]
    decide
  have htok1 : getInvitationByToken db t = some inv := by
    unfold getInvitationByToken
    refine head_filter_of_unique _ inv db.invitations hmem ?_ ?_
    · simp [htok, hunused]
    · intro x hx hpx
      simp at hpx
      exact htokUniq x hx hpx.1
  have hmail : getInvitationByEmail
      { db with users := db.users ++ [registeredUser inv uuid salt nm pw now] }
      inv.email = some inv := by
    unfold getInvitationByEmail
    simp only [hlow]
    refine newest_filter_of_unique _ inv db.invitations hmem ?_ ?_
    · simp
    · intro x hx hpx
      simp at hpx
      exact hemailUniq x hx hpx
  have hmark : markInvitationUsed
      { db with users := db.users ++ [registeredUser inv uuid salt nm pw now] }
      inv.id inv.email now
      = .ok (consumedInvitation inv now)
          { db with
            users := db.users ++ [registeredUser inv uuid salt nm pw now]
            invitations := db.invitations.map (fun j =>
              if j.id == inv.id then consumedInvitation inv now else j) } := by
    unfold markInvitationUsed
    rw [hmail]
    simp [consumedInvitation]
  have hfirst : register env now db uuid salt (some t) (some nm) (some pw)
      = (.created
          (sanitizeUser (userToJson (registeredUser inv uuid salt nm pw now)))
          (generateToken env (registeredUser inv uuid salt nm pw now) now),
         afterRegister db inv uuid salt nm pw now) := by
    simp only [register, truthy, Option.getD_some]
    simp only [htok1]
    rw [if_neg (by simpa using And.intro (And.intro ht hnm) hpw0)]
    rw [if_neg hpw]
    rw [if_neg hexp]
    simp only [hnoUser, createUser]
    have hcreate : mkUser
        { id := uuid
          email := inv.email
          name := nm
          passwordHash := { salt := salt, pw := pw }
          role := some inv.role
          organizationId := some inv.organizationId
          assignedProjects := some inv.projectIds } now
        = registeredUser inv uuid salt nm pw now := rfl
    rw [hcreate, hmark]
    simp only [afterRegister]
    rfl
  have hinvAfter : (afterRegister db inv uuid salt nm pw now).invitations
      = db.invitations.map (fun j =>
          if j.id == inv.id then consumedInvitation inv now else j) := by
    unfold afterRegister
    rw [assignInvitedProjects_invitations]
  have hnone : getInvitationByToken (afterRegister db inv uuid salt nm pw now) t
      = none := by
    unfold getInvitationByToken
    rw [hinvAfter]
    have hnil : (db.invitations.map (fun j =>
        if j.id == inv.id then consumedInvitation inv now else j)).filter
        (fun i => i.token == t && !i.isUsed) = [] := by
      rw [List.filter_eq_nil_iff]
      intro j hj
      rcases List.mem_map.mp hj with ⟨j0, hj0, rfl⟩
      by_cases hid : (j0.id == inv.id) = true
      · simp [hid, consumedInvitation]
      · have hid' : (j0.id == inv.id) = false := by simpa using hid
        simp only [hid', Bool.false_eq_true, if_false, ite_false]
        simp only [Bool.and_eq_true, not_and, Bool.not_eq_true']
        intro hjt
        have hjeq : j0.token = t := by simpa using hjt
        have hji : j0 = inv := htokUniq j0 hj0 hjeq
        rw [hji] at hid'
        simp at hid'
    rw [hnil]
    rfl
  refine ⟨?_, ?_, ?_⟩
  · rw [hfirst]
    rfl
  · rw [hfirst]
    simp only [afterRegister]
    rw [assignInvitedProjects_users]
    simp
  · rw [hfirst]
    simp only [register, truthy, Option.getD_some]
    rw [if_neg (by simpa using And.intro (And.intro ht hnm2) hpw20)]
    rw [if_neg hpw2]
    simp only [hnone]

/-- Witness for C6: redeem tok6 once, then try it again. -/
theorem c6_register_single_use_witness :
    isCreated (register none 10 c6Db "u6" "s6"
        (some "tok6") (some "Newbie") (some "password9")).fst = true
    ∧ (register none 10 c6Db "u6" "s6"
        (some "tok6") (some "Newbie") (some "password9")).snd.users.length
        = c6Db.users.length + 1
    ∧ register none 11 (register none 10 c6Db "u6" "s6"
          (some "tok6") (some "Newbie") (some "password9")).snd
        "u7" "s7" (some "tok6") (some "Other") (some "password8")
      = (.badRequest "Invalid or expired invitation token",
         (register none 10 c6Db "u6" "s6"
           (some "tok6") (some "Newbie") (some "password9")).snd) :=
  c6_register_single_use none 10 11 c6Db "u6" "s6" "u7" "s7" "tok6" "Newbie"
    "password9" "Other" "password8" c6Inv
    (by decide) (by decide) (by decide) (by decide) (by decide) (by decide)
    (by decide) (by decide) (by decide) (by decide) (by decide) (by decide)
    (by decide)

/-- The login handler never leaks a passwordHash key. -/
theorem login_no_leak (env : Option String) (now : Nat) (db : DB)
    (email pw : Option String) : loginLeaks (login env now db email pw) = false := by
  unfold login
  repeat' split
  all_goals simp [loginLeaks, hasKey_pw_sanitize]

/-- The register handler never leaks a passwordHash key. -/
theorem register_no_leak (env : Option String) (now : Nat) (db : DB)
    (uuid salt : String) (tok nm pw : Option String) :
    registerLeaks (register env now db uuid salt tok nm pw).fst = false := by
  unfold register
  split
  · rfl
  split
  · rfl
  split
  · rfl
  next inv _ =>
    split
    · rfl
    split
    · rfl
    cases hmk : markInvitationUsed
        (createUser db
          { id := uuid
            email := inv.email
            name := nm.getD ""
            passwordHash := { salt := salt, pw := pw.getD "" }
            role := some inv.role
            organizationId := some inv.organizationId
            assignedProjects := some inv.projectIds } now).snd
        inv.id inv.email now with
    | thrown => simp [registerLeaks, hmk]
    | notFound db2 => simp [registerLeaks, hmk, hasKey_pw_sanitize]
    | ok i db2 => simp [registerLeaks, hmk, hasKey_pw_sanitize]

/-- The me handler never leaks a passwordHash key. -/
theorem me_no_leak (env : Option String) (now : Nat) (db : DB)
    (tok : Option SignedToken) : meLeaks (meH env now db tok) = false := by
  unfold meH
  repeat' split
  all_goals simp [meLeaks, hasKey_pw_sanitize]

/-- The refresh handler never leaks a passwordHash key. -/
theorem refresh_no_leak (env : Option String) (now : Nat) (db : DB)
    (tok : Option SignedToken) : refreshLeaks (refreshH env now db tok) = false := by
  unfold refreshH
  repeat' split
  all_goals simp [refreshLeaks, hasKey_pw_sanitize]

/-- The response assembled from a database.js updateUser outcome never
carries a passwordHash key. -/
theorem updateUserDb_response_no_leak (db : DB) (id email : String)
    (upd : UserUpdates) (now : Nat) (db0 : DB) :
    userPatchLeaks (match updateUserDb db id email upd now with
      | .ok u2doc db2 => (UserPatchRes.ok (some (sanitizeUser (userToJson u2doc))), db2)
      | .notFound db2 => (UserPatchRes.ok none, db2)
      | .thrown => (UserPatchRes.serverError "Internal server error", db0)).fst
      = false := by
  cases updateUserDb db id email upd now <;>
    simp [userPatchLeaks, hasKey_pw_sanitize]

/-- The user-update handler never leaks a passwordHash key. -/
theorem updateUser_no_leak (now : Nat) (db : DB) (payload : Option JwtPayload)
    (userId : String) (body : UserPatchBody) :
    userPatchLeaks (updateUserH now db payload userId body).fst = false := by
  unfold updateUserH
  split
  · rfl
  split
  · rfl
  simp only []
  repeat' split
  all_goals first
    | rfl
    | apply updateUserDb_response_no_leak
    | simp [userPatchLeaks, hasKey_pw_sanitize]

/-- The users list never carries a passwordHash key. -/
theorem getAllUsers_no_leak (db : DB) (org : Option String) :
    (getAllUsersJson db org).all (fun o => !(hasKey "passwordHash" o)) = true := by
  unfold getAllUsersJson
  rw [List.all_eq_true]
  intro o ho
  rcases List.mem_map.mp ho with ⟨u, hu, rfl⟩
  simp [hasKey_pw_sanitize]

/-- The clients list never carries a passwordHash key. -/
theorem getClientUsers_no_leak (db : DB) (org : Option String) :
    (getClientUsersJson db org).all (fun o => !(hasKey "passwordHash" o)) = true := by
  unfold getClientUsersJson
  rw [List.all_eq_true]
  intro o ho
  rcases List.mem_map.mp ho with ⟨u, hu, rfl⟩
  simp [hasKey_pw_sanitize]

/-- Claim C9: no embedded handler response ever carries a passwordHash key:
the login, register, me, refresh and user-update handlers strip it from
every user object they return, the user list queries strip it from every
element, and project, feedback and invitation payloads have fixed key sets
that never include it. -/
theorem c9_no_password_hash_in_responses :
    (∀ (env : Option String) (now : Nat) (db : DB) (email pw : Option String),
      loginLeaks (login env now db email pw) = false)
    ∧ (∀ (env : Option String) (now : Nat) (db : DB) (uuid salt : String)
        (tok nm pw : Option String),
      registerLeaks (register env now db uuid salt tok nm pw).fst = false)
    ∧ (∀ (env : Option String) (now : Nat) (db : DB) (tok : Option SignedToken),
      meLeaks (meH env now db tok) = false)
    ∧ (∀ (env : Option String) (now : Nat) (db : DB) (tok : Option SignedToken),
      refreshLeaks (refreshH env now db tok) = false)
    ∧ (∀ (now : Nat) (db : DB) (payload : Option JwtPayload) (userId : String)
        (body : UserPatchBody),
      userPatchLeaks (updateUserH now db payload userId body).fst = false)
    ∧ (∀ (db : DB) (org : Option String),
      (getAllUsersJson db org).all (fun o => !(hasKey "passwordHash" o)) = true)
    ∧ (∀ (db : DB) (org : Option String),
      (getClientUsersJson db org).all (fun o => !(hasKey "passwordHash" o)) = true)
    ∧ (∀ p : Project, hasKey "passwordHash" (projectToJson p) = false)
    ∧ (∀ f : Feedback, hasKey "passwordHash" (feedbackToJson f) = false)
    ∧ (∀ i : Invitation, hasKey "passwordHash" (invitationSummaryJson i) = false) :=
  ⟨login_no_leak, register_no_leak, me_no_leak, refresh_no_leak,
   updateUser_no_leak, getAllUsers_no_leak, getClientUsers_no_leak,
   fun p => by simp [projectToJson, hasKey],
   fun f => by simp [feedbackToJson, hasKey],
   fun i => by simp [invitationSummaryJson, hasKey]⟩

end WebReview
